import Mathlib

/-
Verification development for the persistence core of deltachat-core
(src/dc_sqlite3.c).  The C code is shallowly embedded: C strings are
lists of byte values, the SQLite `config` table is an association list,
the database is a record of the tables and rows the code touches, and
every `dc_sqlite3_execute__` call is mirrored by a structured action
appended to a statement log.
-/

namespace DeltaChat

/-- A C string, modelled as its list of byte values. -/
abbrev CStr := List Nat

/-! ### `atol` and `dc_mprintf("%i", ...)` -/

/-- `isdigit` on a byte (C locale): ASCII '0'..'9'. -/
def isDigitByte (c : Nat) : Bool := 48 ≤ c && c ≤ 57

/-- `isspace` on a byte (C locale): space or 0x09..0x0D. -/
def isSpaceByte (c : Nat) : Bool := c == 32 || (9 ≤ c && c ≤ 13)

/-- The digit-consuming loop of C `atol`: accumulate base-10 digits,
stop at the first non-digit. -/
def atolLoop : List Nat → Int → Int
  | [], acc => acc
  | c :: rest, acc =>
    if isDigitByte c then atolLoop rest (acc * 10 + ((c - 48 : Nat) : Int)) else acc

/-- After whitespace skipping, C `atol` accepts one optional sign
(45 is the minus byte, 43 the plus byte) and then digits. -/
def atolSigned : CStr → Int
  | [] => 0
  | c :: rest =>
    if c == 45 then - atolLoop rest 0
    else if c == 43 then atolLoop rest 0
    else atolLoop (c :: rest) 0

/-- C `atol`: skip leading whitespace, optional sign, leading digit run;
no digits yields 0. -/
def atol (s : CStr) : Int := atolSigned (s.dropWhile isSpaceByte)

/-- Decimal digits, most significant first; structural recursion on a
fuel argument (any fuel at least the value is enough, and the base case
agrees with the single-digit case). -/
def natDecimalAux : Nat → Nat → List Nat
  | 0, n => [48 + n % 10]
  | fuel + 1, n =>
    if n < 10 then [48 + n] else natDecimalAux fuel (n / 10) ++ [48 + n % 10]

/-- Decimal digits of a natural number, most significant first
(the digit run printed by `%i` for a non-negative value). -/
def natDecimal (n : Nat) : List Nat := natDecimalAux n n

/-- `dc_mprintf("%i", v)`: the base-10 rendering of a C int, with a
leading minus byte for negative values. -/
def mprintf_i (v : Int) : CStr :=
  if v < 0 then 45 :: natDecimal v.natAbs else natDecimal v.natAbs

/-- The C conversion `(int32_t) long_value`: wrap into
[-2^31, 2^31). -/
def toInt32 (n : Int) : Int := (n + 2147483648) % 4294967296 - 2147483648

/-! ### The `config` key/value store (dc_sqlite3_set_config__ etc.)

The `config` table is an association list from key names to value
strings; `sqlite3_step` of the bound SELECT/INSERT/UPDATE/DELETE
statements becomes the corresponding list operation.  Keys undergo
only equality tests in the C code, so they stay Lean strings; values
flow through `atol`, so they are byte lists. -/

abbrev Config := List (String × CStr)

/-- `dc_sqlite3_set_config__`: with a value, upsert (SELECT then INSERT
or UPDATE); with an absent value, DELETE the key. -/
def dc_sqlite3_set_config__ (c : Config) (key : String) (value : Option CStr) : Config :=
  match value with
  | some v =>
    match c.find? (fun p => p.1 == key) with
    | some _ => c.map (fun p => if p.1 == key then (p.1, v) else p)
    | none => c ++ [(key, v)]
  | none => c.filter (fun p => !(p.1 == key))

/-- `dc_sqlite3_get_config__`: the stored string, or the (possibly
absent) default when the key is missing. -/
def dc_sqlite3_get_config__ (c : Config) (key : String) (de : Option CStr) : Option CStr :=
  match c.find? (fun p => p.1 == key) with
  | some p => some p.2
  | none => de

/-- `dc_sqlite3_get_config_int__`: absent key yields the default;
otherwise `(int32_t)atol(str)` of the stored string. -/
def dc_sqlite3_get_config_int__ (c : Config) (key : String) (de : Int) : Int :=
  match dc_sqlite3_get_config__ c key none with
  | none => de
  | some str => toInt32 (atol str)

/-- `dc_sqlite3_set_config_int__`: store `dc_mprintf("%i", value)`. -/
def dc_sqlite3_set_config_int__ (c : Config) (key : String) (value : Int) : Config :=
  dc_sqlite3_set_config__ c key (some (mprintf_i value))

/-! ### Transaction nesting (dc_sqlite3_begin_transaction__ etc.)

`m_transactionCount` is a C int; each operation returns the new counter
together with the list of physical statements stepped against the
engine. -/

/-- A physical transaction statement issued to SQLite. -/
inductive TxStmt where
  | beginStmt
  | commitStmt
  | rollbackStmt
deriving DecidableEq, Repr

/-- `dc_sqlite3_begin_transaction__`: increment; on reaching 1, step
the cached BEGIN statement. -/
def dc_sqlite3_begin_transaction__ (cnt : Int) : Int × List TxStmt :=
  (cnt + 1, if cnt + 1 = 1 then [TxStmt.beginStmt] else [])

/-- `dc_sqlite3_rollback__`: only when the counter is at least 1: step
ROLLBACK when it is exactly 1, then decrement. -/
def dc_sqlite3_rollback__ (cnt : Int) : Int × List TxStmt :=
  if cnt ≥ 1 then (cnt - 1, if cnt = 1 then [TxStmt.rollbackStmt] else [])
  else (cnt, [])

/-- `dc_sqlite3_commit__`: only when the counter is at least 1: step
COMMIT when it is exactly 1, then decrement. -/
def dc_sqlite3_commit__ (cnt : Int) : Int × List TxStmt :=
  if cnt ≥ 1 then (cnt - 1, if cnt = 1 then [TxStmt.commitStmt] else [])
  else (cnt, [])

/-- A call into the transaction manager. -/
inductive TxOp where
  | beginOp
  | commitOp
  | rollbackOp
deriving DecidableEq, Repr

def stepTx (cnt : Int) : TxOp → Int × List TxStmt
  | .beginOp => dc_sqlite3_begin_transaction__ cnt
  | .commitOp => dc_sqlite3_commit__ cnt
  | .rollbackOp => dc_sqlite3_rollback__ cnt

/-- Run a sequence of begin/commit/rollback calls, collecting every
physical statement issued. -/
def runTx : Int → List TxOp → Int × List TxStmt
  | cnt, [] => (cnt, [])
  | cnt, op :: rest =>
    ((runTx (stepTx cnt op).1 rest).1,
     (stepTx cnt op).2 ++ (runTx (stepTx cnt op).1 rest).2)

/-! ### Database state, bootstrap and migration ladder (dc_sqlite3_open__)

The database holds the tables whose rows the core itself writes
(`contacts`, `chats`, `msgs` reserved-row seeding, `config`), the list
of existing table names, and a log mirroring, in order, every SQL
statement the open path executes. -/

def dbversionKey : String := "dbversion"

def tblConfig : String := "config"
def tblContacts : String := "contacts"
def tblChats : String := "chats"
def tblChatsContacts : String := "chats_contacts"
def tblMsgs : String := "msgs"
def tblJobs : String := "jobs"
def tblLeftgrps : String := "leftgrps"
def tblKeypairs : String := "keypairs"
def tblAcpeerstates : String := "acpeerstates"
def tblMsgsMdns : String := "msgs_mdns"
def tblTokens : String := "tokens"

def idxConfig1 : String := "config_index1"
def idxContacts1 : String := "contacts_index1"
def idxContacts2 : String := "contacts_index2"
def idxChats1 : String := "chats_index1"
def idxChats2 : String := "chats_index2"
def idxChatsContacts1 : String := "chats_contacts_index1"
def idxChatsContacts2 : String := "chats_contacts_index2"
def idxMsgs1 : String := "msgs_index1"
def idxMsgs2 : String := "msgs_index2"
def idxMsgs3 : String := "msgs_index3"
def idxMsgs4 : String := "msgs_index4"
def idxMsgs5 : String := "msgs_index5"
def idxJobs1 : String := "jobs_index1"
def idxLeftgrps1 : String := "leftgrps_index1"
def idxAcpeerstates1 : String := "acpeerstates_index1"
def idxAcpeerstates3 : String := "acpeerstates_index3"
def idxAcpeerstates4 : String := "acpeerstates_index4"
def idxAcpeerstates5 : String := "acpeerstates_index5"
def idxMsgsMdns1 : String := "msgs_mdns_index1"

def colAuthname : String := "authname"
def colArchived : String := "archived"
def colStarred : String := "starred"
def colGossipTimestamp : String := "gossip_timestamp"
def colGossipKey : String := "gossip_key"
def colTimestampSent : String := "timestamp_sent"
def colTimestampRcvd : String := "timestamp_rcvd"
def colHidden : String := "hidden"
def colPublicKeyFp : String := "public_key_fingerprint"
def colGossipKeyFp : String := "gossip_key_fingerprint"
def colVerifiedKey : String := "verified_key"
def colVerifiedKeyFp : String := "verified_key_fingerprint"
def colThread : String := "thread"

def nmSelf : String := "self"
def nmDevice : String := "device"
def nmRsvd : String := "rsvd"
def nmDeaddrop : String := "deaddrop"
def nmTrash : String := "trash"
def nmMsgsInCreation : String := "msgs_in_creation"
def nmStarred : String := "starred"
def nmArchivedlink : String := "archivedlink"
def nmMarker1 : String := "marker1"
def nmDaymarker : String := "daymarker"

/-- A `contacts` row, restricted to the columns the INSERT sets. -/
structure Contact where
  id : Nat
  name : String
  origin : Nat
deriving DecidableEq

/-- A `chats` row, restricted to the columns the INSERT sets. -/
structure Chat where
  id : Nat
  type : Nat
  name : String
deriving DecidableEq

/-- A `msgs` row, restricted to the columns the INSERT sets plus
`chat_id` (defaulted to 0), which the target-27 DELETE filters on. -/
structure Msg where
  id : Nat
  msgrmsg : Nat
  txt : String
  chat_id : Nat
deriving DecidableEq

/-- One executed SQL statement of the open path, in structured form. -/
inductive Action where
  | createTable (name : String)
  | createIndex (name : String)
  | insertSeed (table : String)
  | alterAdd (table col : String)
  | deleteOldDeaddropMsgs
  | copyGossipToVerified
  | copyPublicToVerified
  | setConfigInt (key : String) (v : Int)
  | recalcFingerprints
deriving DecidableEq

/-- The database file contents as far as the core manipulates them,
plus the ordered log of executed statements. -/
structure Db where
  tables : List String
  config : Config
  contacts : List Contact
  chats : List Chat
  msgs : List Msg
  log : List Action
deriving DecidableEq

def emptyDb : Db := ⟨[], [], [], [], [], []⟩

/-- `dc_sqlite3_table_exists__`. -/
def dc_sqlite3_table_exists__ (db : Db) (n : String) : Bool := db.tables.contains n

def execCreateTable (db : Db) (n : String) : Db :=
  { db with tables := db.tables ++ [n], log := db.log ++ [Action.createTable n] }

def execCreateIndex (db : Db) (n : String) : Db :=
  { db with log := db.log ++ [Action.createIndex n] }

def execAlterAdd (db : Db) (t c : String) : Db :=
  { db with log := db.log ++ [Action.alterAdd t c] }

def execInsertContacts (db : Db) (rows : List Contact) : Db :=
  { db with contacts := db.contacts ++ rows, log := db.log ++ [Action.insertSeed tblContacts] }

def execInsertChats (db : Db) (rows : List Chat) : Db :=
  { db with chats := db.chats ++ rows, log := db.log ++ [Action.insertSeed tblChats] }

def execInsertMsgs (db : Db) (rows : List Msg) : Db :=
  { db with msgs := db.msgs ++ rows, log := db.log ++ [Action.insertSeed tblMsgs] }

/-- `DELETE FROM msgs WHERE chat_id=1 OR chat_id=2` (target 27). -/
def execDeleteOldDeaddropMsgs (db : Db) : Db :=
  { db with msgs := db.msgs.filter (fun m => !(m.chat_id == 1 || m.chat_id == 2)),
            log := db.log ++ [Action.deleteOldDeaddropMsgs] }

/-- `UPDATE acpeerstates SET verified_key=gossip_key, ... WHERE gossip_key_verified=2`. -/
def execCopyGossip (db : Db) : Db :=
  { db with log := db.log ++ [Action.copyGossipToVerified] }

/-- `UPDATE acpeerstates SET verified_key=public_key, ... WHERE public_key_verified=2`. -/
def execCopyPublic (db : Db) : Db :=
  { db with log := db.log ++ [Action.copyPublicToVerified] }

/-- `dc_sqlite3_set_config_int__` against the database under migration. -/
def dbSetConfigInt (db : Db) (k : String) (v : Int) : Db :=
  { db with config := dc_sqlite3_set_config_int__ db.config k v,
            log := db.log ++ [Action.setConfigInt k v] }

/-- `dc_sqlite3_get_config_int__` against the database. -/
def dbGetConfigInt (db : Db) (k : String) (de : Int) : Int :=
  dc_sqlite3_get_config_int__ db.config k de

/-- The nine reserved `contacts` rows (id, name, origin). -/
def contactsSeed : List Contact :=
  [⟨1, nmSelf, 262144⟩, ⟨2, nmDevice, 262144⟩, ⟨3, nmRsvd, 262144⟩,
   ⟨4, nmRsvd, 262144⟩, ⟨5, nmRsvd, 262144⟩, ⟨6, nmRsvd, 262144⟩,
   ⟨7, nmRsvd, 262144⟩, ⟨8, nmRsvd, 262144⟩, ⟨9, nmRsvd, 262144⟩]

/-- The nine reserved `chats` rows (id, type, name). -/
def chatsSeed : List Chat :=
  [⟨1, 120, nmDeaddrop⟩, ⟨2, 120, nmRsvd⟩, ⟨3, 120, nmTrash⟩,
   ⟨4, 120, nmMsgsInCreation⟩, ⟨5, 120, nmStarred⟩, ⟨6, 120, nmArchivedlink⟩,
   ⟨7, 100, nmRsvd⟩, ⟨8, 100, nmRsvd⟩, ⟨9, 100, nmRsvd⟩]

/-- The nine reserved `msgs` rows (id, msgrmsg, txt); `chat_id`
defaults to 0. -/
def msgsSeed : List Msg :=
  [⟨1, 0, nmMarker1, 0⟩, ⟨2, 0, nmRsvd, 0⟩, ⟨3, 0, nmRsvd, 0⟩,
   ⟨4, 0, nmRsvd, 0⟩, ⟨5, 0, nmRsvd, 0⟩, ⟨6, 0, nmRsvd, 0⟩,
   ⟨7, 0, nmRsvd, 0⟩, ⟨8, 0, nmRsvd, 0⟩, ⟨9, 0, nmDaymarker, 0⟩]

/-- First-time init (dbversion=0 bootstrap): the DDL and seed inserts
of the `!table_exists(config)` branch, ending with `dbversion = 0`. -/
def bootstrapTables (db : Db) : Db :=
  let db := execCreateTable db tblConfig
  let db := execCreateIndex db idxConfig1
  let db := execCreateTable db tblContacts
  let db := execCreateIndex db idxContacts1
  let db := execCreateIndex db idxContacts2
  let db := execInsertContacts db contactsSeed
  let db := execCreateTable db tblChats
  let db := execCreateIndex db idxChats1
  let db := execCreateTable db tblChatsContacts
  let db := execCreateIndex db idxChatsContacts1
  let db := execInsertChats db chatsSeed
  let db := execCreateTable db tblMsgs
  let db := execCreateIndex db idxMsgs1
  let db := execCreateIndex db idxMsgs2
  let db := execCreateIndex db idxMsgs3
  let db := execCreateIndex db idxMsgs4
  let db := execInsertMsgs db msgsSeed
  let db := execCreateTable db tblJobs
  let db := execCreateIndex db idxJobs1
  dbSetConfigInt db dbversionKey 0

/-- The mutable state of the migration section: the database, the local
`dbversion` variable and the `recalc_fingerprints` flag. -/
structure MigState where
  db : Db
  ver : Int
  recalc : Bool
deriving DecidableEq

/-- One `#define NEW_DB_VERSION t` block: gate on `dbversion < t`, run
the body, then `dbversion = t` both locally and in the config store. -/
def gatedStep (t : Int) (body : MigState → MigState) (s : MigState) : MigState :=
  if s.ver < t then
    let s2 := body s
    { s2 with db := dbSetConfigInt s2.db dbversionKey t, ver := t }
  else s

def mig1 (s : MigState) : MigState :=
  { s with db := execCreateIndex (execCreateTable s.db tblLeftgrps) idxLeftgrps1 }

def mig2 (s : MigState) : MigState :=
  { s with db := execAlterAdd s.db tblContacts colAuthname }

def mig7 (s : MigState) : MigState :=
  { s with db := execCreateTable s.db tblKeypairs }

def mig10 (s : MigState) : MigState :=
  { s with db := execCreateIndex (execCreateTable s.db tblAcpeerstates) idxAcpeerstates1 }

def mig12 (s : MigState) : MigState :=
  { s with db := execCreateIndex (execCreateTable s.db tblMsgsMdns) idxMsgsMdns1 }

def mig17 (s : MigState) : MigState :=
  let db := execAlterAdd s.db tblChats colArchived
  let db := execCreateIndex db idxChats2
  let db := execAlterAdd db tblMsgs colStarred
  let db := execCreateIndex db idxMsgs5
  { s with db := db }

def mig18 (s : MigState) : MigState :=
  let db := execAlterAdd s.db tblAcpeerstates colGossipTimestamp
  let db := execAlterAdd db tblAcpeerstates colGossipKey
  { s with db := db }

def mig27 (s : MigState) : MigState :=
  let db := execDeleteOldDeaddropMsgs s.db
  let db := execCreateIndex db idxChatsContacts2
  let db := execAlterAdd db tblMsgs colTimestampSent
  let db := execAlterAdd db tblMsgs colTimestampRcvd
  { s with db := db }

def mig34 (s : MigState) : MigState :=
  let db := execAlterAdd s.db tblMsgs colHidden
  let db := execAlterAdd db tblMsgsMdns colTimestampSent
  let db := execAlterAdd db tblAcpeerstates colPublicKeyFp
  let db := execAlterAdd db tblAcpeerstates colGossipKeyFp
  let db := execCreateIndex db idxAcpeerstates3
  let db := execCreateIndex db idxAcpeerstates4
  { s with db := db, recalc := true }

/-- Target 39: tokens table and verified-key columns; the one-time copy
of gossip/public key material runs only when `dbversion_before_update`
was exactly 34. -/
def mig39 (before : Int) (s : MigState) : MigState :=
  let db := execCreateTable s.db tblTokens
  let db := execAlterAdd db tblAcpeerstates colVerifiedKey
  let db := execAlterAdd db tblAcpeerstates colVerifiedKeyFp
  let db := execCreateIndex db idxAcpeerstates5
  let db := if before = 34 then execCopyPublic (execCopyGossip db) else db
  { s with db := db }

def mig40 (s : MigState) : MigState :=
  { s with db := execAlterAdd s.db tblJobs colThread }

/-- The ladder targets, in the order the code applies them. -/
def ladderTargets : List Int := [1, 2, 7, 10, 12, 17, 18, 27, 34, 39, 40]

/-- The migration blocks in source order, each paired with its target. -/
def ladderSteps (before : Int) : List (Int × (MigState → MigState)) :=
  [(1, mig1), (2, mig2), (7, mig7), (10, mig10), (12, mig12), (17, mig17),
   (18, mig18), (27, mig27), (34, mig34), (39, mig39 before), (40, mig40)]

def runSteps : List (Int × (MigState → MigState)) → MigState → MigState
  | [], s => s
  | p :: ts, s => runSteps ts (gatedStep p.1 p.2 s)

/-- The database as it stands when the ladder begins: unchanged when
the `config` table exists, otherwise freshly bootstrapped. -/
def openStartDb (db0 : Db) : Db :=
  if dc_sqlite3_table_exists__ db0 tblConfig then db0 else bootstrapTables db0

/-- `dbversion_before_update`: the stored version when the `config`
table exists, 0 for a fresh bootstrap. -/
def openBefore (db0 : Db) : Int :=
  if dc_sqlite3_table_exists__ db0 tblConfig
  then dbGetConfigInt db0 dbversionKey 0 else 0

/-- The migration state after the ladder has run. -/
def ladderResult (db0 : Db) : MigState :=
  runSteps (ladderSteps (openBefore db0)) ⟨openStartDb db0, openBefore db0, false⟩

/-- The read-write branch of `dc_sqlite3_open__` on the opened database
file: bootstrap when the `config` table is absent, then the ladder,
then the fingerprint-recalculation pass when its flag was set. -/
def dc_sqlite3_open_rw (db0 : Db) : Db :=
  if (ladderResult db0).recalc
  then { (ladderResult db0).db with
          log := (ladderResult db0).db.log ++ [Action.recalcFingerprints] }
  else (ladderResult db0).db

/-! ### Handle-level open/close -/

/-- The `dc_sqlite3_t` handle: the connection (`m_cobj`) with the
database it is open on, and the predefined-statement slots (`m_pd`),
each recorded as compiled or not. -/
structure Handle where
  cobj : Option Db
  pd : List Bool
deriving DecidableEq

/-- Environment outcomes of the external calls inside open:
`sqlite3_threadsafe()`, the `sqlite3_open_v2` result, and whether the
bootstrap DDL actually created the tables (the `table_exists`
verification after first-time init). -/
structure OpenEnv where
  threadsafe : Bool
  openOk : Bool
  createOk : Bool
deriving DecidableEq

/-- `dc_sqlite3_is_open`. -/
def dc_sqlite3_is_open (h : Handle) : Bool := h.cobj.isSome

/-- `dc_sqlite3_close__`: when a connection exists, finalize every
cached statement slot and close it. -/
def dc_sqlite3_close__ (h : Handle) : Handle :=
  if h.cobj.isSome then { cobj := none, pd := h.pd.map (fun _ => false) } else h

/-- `dc_sqlite3_open__`: the guard chain in source order; every failure
exits through the cleanup label, which runs `dc_sqlite3_close__`. -/
def dc_sqlite3_open__ (h : Handle) (env : OpenEnv) (file : Option Db) (readonly : Bool) :
    Handle × Bool :=
  if env.threadsafe = false then (dc_sqlite3_close__ h, false)
  else if h.cobj.isSome then (dc_sqlite3_close__ h, false)
  else if env.openOk = false then (dc_sqlite3_close__ h, false)
  else if readonly then ({ h with cobj := some (file.getD emptyDb) }, true)
  else if !(dc_sqlite3_table_exists__ (file.getD emptyDb) tblConfig) && !env.createOk then
    (dc_sqlite3_close__ h, false)
  else ({ h with cobj := some (dc_sqlite3_open_rw (file.getD emptyDb)) }, true)

/-- The `dbversion` values committed to the config store, in log
order. -/
def dbvWrites (log : List Action) : List Int :=
  log.filterMap (fun a =>
    match a with
    | Action.setConfigInt k v => if k = dbversionKey then some v else none
    | _ => none)

/-- The nine blocks preceding target 39, in source order. -/
def frontSteps : List (Int × (MigState → MigState)) :=
  [(1, mig1), (2, mig2), (7, mig7), (10, mig10), (12, mig12), (17, mig17),
   (18, mig18), (27, mig27), (34, mig34)]

def headIsDigit : CStr → Bool
  | [] => false
  | d :: _ => isDigitByte d

/-- Does the stored string carry a leading integer prefix for `atol`:
after optional whitespace and one optional sign, a digit follows. -/
def hasLeadingInt (s : CStr) : Bool :=
  match s.dropWhile isSpaceByte with
  | [] => false
  | c :: rest =>
    if c == 45 then headIsDigit rest
    else if c == 43 then headIsDigit rest
    else isDigitByte c

/-- A database file already at schema version 34 (config table present,
`dbversion` stored as "34"). -/
def db34 : Db :=
  ⟨[tblConfig], dc_sqlite3_set_config_int__ [] dbversionKey 34, [], [], [], []⟩

/-- A database file already at schema version 18. -/
def db18 : Db :=
  ⟨[tblConfig], dc_sqlite3_set_config_int__ [] dbversionKey 18, [], [], [], []⟩

/-- A sample config key. -/
def cfgKeyK : String := "k"

/-- A closed handle. -/
def h0 : Handle := ⟨none, []⟩

/-- A handle whose connection is open (on an empty database) and whose
statement cache has one compiled slot. -/
def hOpen : Handle := ⟨some emptyDb, [true, false]⟩

/-- An environment where every external call succeeds. -/
def envOk : OpenEnv := ⟨true, true, true⟩

theorem toInt32_eq_self {n : Int} (h1 : -2147483648 ≤ n) (h2 : n < 2147483648) :
    toInt32 n = n := by
  unfold toInt32; omega

theorem natDecimalAux_bounds :
    ∀ fuel n, ∀ c ∈ natDecimalAux fuel n, 48 ≤ c ∧ c ≤ 57 := by
  intro fuel
  induction fuel with
  | zero =>
    intro n c hc
    simp [natDecimalAux] at hc
    have : n % 10 < 10 := Nat.mod_lt _ (by omega)
    omega
  | succ k ih =>
    intro n c hc
    rw [natDecimalAux] at hc
    split at hc
    · simp at hc; omega
    · rw [List.mem_append] at hc
      rcases hc with hc | hc
      · exact ih (n / 10) c hc
      · simp at hc
        have : n % 10 < 10 := Nat.mod_lt _ (by omega)
        omega

theorem natDecimal_bounds : ∀ n, ∀ c ∈ natDecimal n, 48 ≤ c ∧ c ≤ 57 :=
  fun n => natDecimalAux_bounds n n

theorem natDecimalAux_ne_nil (fuel n : Nat) : natDecimalAux fuel n ≠ [] := by
  cases fuel with
  | zero => simp [natDecimalAux]
  | succ k =>
    rw [natDecimalAux]
    split
    · simp
    · simp [natDecimalAux_ne_nil k (n / 10)]

theorem natDecimal_ne_nil (n : Nat) : natDecimal n ≠ [] := natDecimalAux_ne_nil n n

theorem atolLoop_append (xs ys : List Nat) (acc : Int)
    (h : ∀ c ∈ xs, isDigitByte c = true) :
    atolLoop (xs ++ ys) acc = atolLoop ys (atolLoop xs acc) := by
  induction xs generalizing acc with
  | nil => simp [atolLoop]
  | cons c rest ih =>
    have hc : isDigitByte c = true := h c (by simp)
    simp only [List.cons_append, atolLoop, hc, if_true]
    exact ih _ (fun d hd => h d (by simp [hd]))

theorem atolLoop_natDecimalAux :
    ∀ fuel n, n ≤ fuel →
      ∀ acc : Int, atolLoop (natDecimalAux fuel n) acc
        = acc * 10 ^ (natDecimalAux fuel n).length + n := by
  intro fuel
  induction fuel with
  | zero =>
    intro n hn acc
    have hn0 : n = 0 := by omega
    subst hn0
    simp [natDecimalAux, atolLoop, isDigitByte]
  | succ k ih =>
    intro n hn acc
    rw [natDecimalAux]
    split
    · have hd : isDigitByte (48 + n) = true := by
        simp [isDigitByte]; omega
      simp [atolLoop, hd]
    · have hfuel : n / 10 ≤ k := by
        have := Nat.div_lt_self (show 0 < n by omega) (show 1 < 10 by omega)
        omega
      rw [atolLoop_append _ _ _ (fun c hc => (by
        have := natDecimalAux_bounds k (n / 10) c hc
        simp [isDigitByte]; omega))]
      rw [ih (n / 10) hfuel]
      have hd : isDigitByte (48 + n % 10) = true := by
        have : n % 10 < 10 := Nat.mod_lt _ (by omega)
        simp [isDigitByte]; omega
      simp [atolLoop, hd]
      rw [pow_succ]
      have hdm : ((n : Int)) / 10 * 10 + (n : Int) % 10 = (n : Int) := by omega
      linear_combination hdm

/-- The digit run of `%i` round-trips through the `atol` digit loop. -/
theorem atolLoop_natDecimal_zero (n : Nat) : atolLoop (natDecimal n) 0 = n := by
  unfold natDecimal
  rw [atolLoop_natDecimalAux n n le_rfl]
  simp

theorem dropWhile_natDecimal (n : Nat) :
    (natDecimal n).dropWhile isSpaceByte = natDecimal n := by
  cases h : natDecimal n with
  | nil => simp
  | cons c rest =>
    have hc : 48 ≤ c ∧ c ≤ 57 := natDecimal_bounds n c (by rw [h]; simp)
    have hs : isSpaceByte c = false := by
      simp [isSpaceByte]; omega
    simp [List.dropWhile, hs]

/-- `atol` inverts `dc_mprintf("%i", ·)` on every integer. -/
theorem atol_mprintf_i (v : Int) : atol (mprintf_i v) = v := by
  unfold atol mprintf_i
  split
  · -- negative: leading minus byte
    have hs : isSpaceByte 45 = false := by decide
    simp only [List.dropWhile, hs]
    have h45 : (45 == 45) = true := by decide
    simp only [atolSigned, h45, if_true]
    rw [atolLoop_natDecimal_zero]
    omega
  · -- non-negative: plain digit run
    rw [dropWhile_natDecimal]
    cases h : natDecimal v.natAbs with
    | nil => exact absurd h (natDecimal_ne_nil _)
    | cons c rest =>
      have hc : 48 ≤ c ∧ c ≤ 57 := natDecimal_bounds _ c (by rw [h]; simp)
      have h45 : c ≠ 45 := by omega
      have h43 : c ≠ 43 := by omega
      have hred : atolSigned (c :: rest) = atolLoop (c :: rest) 0 := by
        simp [atolSigned, h45, h43]
      rw [hred, ← h, atolLoop_natDecimal_zero]
      omega

theorem find?_map_update (c : Config) (key : String) (v : CStr)
    (hf : (c.find? (fun p => p.1 == key)).isSome = true) :
    ∃ a, (c.map (fun p => if p.1 == key then (p.1, v) else p)).find?
      (fun p => p.1 == key) = some (a, v) := by
  induction c with
  | nil => simp at hf
  | cons p rest ih =>
    cases hk : (p.1 == key) with
    | true =>
      refine ⟨p.1, ?_⟩
      rw [List.map_cons, if_pos hk]
      exact List.find?_cons_of_pos _ hk
    | false =>
      rw [List.find?_cons_of_neg _ (by simp [hk])] at hf
      obtain ⟨a, ha⟩ := ih hf
      refine ⟨a, ?_⟩
      rw [List.map_cons, if_neg (by simp [hk]),
        List.find?_cons_of_neg _ (by simp [hk]), ha]

/-- Upsert followed by lookup returns the stored value regardless of the
default and of prior presence of the key. -/
theorem get_after_set_some (c : Config) (key : String) (v : CStr) (de : Option CStr) :
    dc_sqlite3_get_config__ (dc_sqlite3_set_config__ c key (some v)) key de = some v := by
  unfold dc_sqlite3_get_config__ dc_sqlite3_set_config__
  cases hf : c.find? (fun p => p.1 == key) with
  | none =>
    simp only [List.find?_append, hf, Option.none_or]
    rw [List.find?_cons_of_pos _ (by simp)]
  | some q =>
    have hsome : (c.find? fun p => p.1 == key).isSome = true := by
      rw [hf]; rfl
    obtain ⟨a, ha⟩ := find?_map_update c key v hsome
    simp only [ha]

/-- Delete followed by lookup returns the default. -/
theorem get_after_set_none (c : Config) (key : String) (de : Option CStr) :
    dc_sqlite3_get_config__ (dc_sqlite3_set_config__ c key none) key de = de := by
  unfold dc_sqlite3_get_config__ dc_sqlite3_set_config__
  have h : (c.filter (fun p => !(p.1 == key))).find? (fun p => p.1 == key) = none := by
    rw [List.find?_eq_none]
    intro x hx
    rw [List.mem_filter] at hx
    simp only [Bool.not_eq_true'] at hx
    simp [hx.2]
  rw [h]

/-- Integer upsert followed by integer lookup recovers the value when it
is in signed 32-bit range. -/
theorem get_int_after_set_int (c : Config) (key : String) (v : Int) (de : Int)
    (h1 : -2147483648 ≤ v) (h2 : v < 2147483648) :
    dc_sqlite3_get_config_int__ (dc_sqlite3_set_config_int__ c key v) key de = v := by
  unfold dc_sqlite3_get_config_int__ dc_sqlite3_set_config_int__
  rw [get_after_set_some]
  simp only
  rw [atol_mprintf_i]
  exact toInt32_eq_self h1 h2

theorem runTx_cons (cnt : Int) (op : TxOp) (rest : List TxOp) :
    runTx cnt (op :: rest)
      = ((runTx (stepTx cnt op).1 rest).1,
         (stepTx cnt op).2 ++ (runTx (stepTx cnt op).1 rest).2) := rfl

theorem runTx_append (cnt : Int) (l1 l2 : List TxOp) :
    runTx cnt (l1 ++ l2)
      = ((runTx (runTx cnt l1).1 l2).1,
         (runTx cnt l1).2 ++ (runTx (runTx cnt l1).1 l2).2) := by
  induction l1 generalizing cnt with
  | nil => simp [runTx]
  | cons op rest ih => simp [runTx, ih, List.append_assoc]

/-- Inner begins (counter already at least 1) are silent. -/
theorem runTx_inner_begins (m : Nat) (cnt : Int) (h : 1 ≤ cnt) :
    runTx cnt (List.replicate m TxOp.beginOp) = (cnt + m, []) := by
  induction m generalizing cnt with
  | zero => simp [runTx]
  | succ k ih =>
    rw [List.replicate_succ, runTx_cons]
    have hstep : stepTx cnt TxOp.beginOp = (cnt + 1, []) := by
      simp only [stepTx, dc_sqlite3_begin_transaction__]
      rw [if_neg (by omega)]
    rw [hstep, ih (cnt + 1) (by omega)]
    simp only [Prod.mk.injEq, List.nil_append]
    refine ⟨by push_cast; ring, trivial⟩

/-- Unwinding the counter from `m + 1` with `m + 1` commits issues
exactly the one final COMMIT. -/
theorem runTx_unwind_commits (m : Nat) :
    runTx ((m : Int) + 1) (List.replicate (m + 1) TxOp.commitOp)
      = (0, [TxStmt.commitStmt]) := by
  induction m with
  | zero => simp [runTx, stepTx, dc_sqlite3_commit__]
  | succ k ih =>
    rw [List.replicate_succ, runTx_cons]
    have hstep : stepTx (((k + 1 : Nat) : Int) + 1) TxOp.commitOp
        = (((k : Nat) : Int) + 1, []) := by
      simp only [stepTx, dc_sqlite3_commit__]
      rw [if_pos (by push_cast; omega), if_neg (by push_cast; omega)]
      simp only [Prod.mk.injEq]
      refine ⟨by push_cast; ring, trivial⟩
    rw [hstep, ih]
    simp

/-- Every step of the transaction manager keeps the counter
non-negative. -/
theorem stepTx_nonneg (cnt : Int) (op : TxOp) (h : 0 ≤ cnt) :
    0 ≤ (stepTx cnt op).1 := by
  cases op <;>
    simp only [stepTx, dc_sqlite3_begin_transaction__, dc_sqlite3_commit__,
      dc_sqlite3_rollback__] <;>
    first
      | omega
      | (split <;> simp <;> omega)

theorem runTx_nonneg (ops : List TxOp) (cnt : Int) (h : 0 ≤ cnt) :
    0 ≤ (runTx cnt ops).1 := by
  induction ops generalizing cnt with
  | nil => simpa [runTx]
  | cons op rest ih =>
    simp only [runTx]
    exact ih _ (stepTx_nonneg cnt op h)

/-! ### Generic facts about the step machine -/

theorem dbvWrites_append (l1 l2 : List Action) :
    dbvWrites (l1 ++ l2) = dbvWrites l1 ++ dbvWrites l2 := by
  simp [dbvWrites]

theorem gatedStep_ver (t : Int) (b : MigState → MigState) (s : MigState) :
    (gatedStep t b s).ver = if s.ver < t then t else s.ver := by
  unfold gatedStep
  split <;> rfl

theorem runSteps_cons (p : Int × (MigState → MigState))
    (ts : List (Int × (MigState → MigState))) (s : MigState) :
    runSteps (p :: ts) s = runSteps ts (gatedStep p.1 p.2 s) := rfl

theorem runSteps_append (l1 l2 : List (Int × (MigState → MigState))) (s : MigState) :
    runSteps (l1 ++ l2) s = runSteps l2 (runSteps l1 s) := by
  induction l1 generalizing s with
  | nil => rfl
  | cons p rest ih => exact ih (gatedStep p.1 p.2 s)

theorem runSteps_ver_cases (ts : List (Int × (MigState → MigState))) (s : MigState) :
    (runSteps ts s).ver = s.ver ∨ (runSteps ts s).ver ∈ ts.map Prod.fst := by
  induction ts generalizing s with
  | nil => left; rfl
  | cons p rest ih =>
    rw [runSteps_cons]
    rcases ih (gatedStep p.1 p.2 s) with h | h
    · rw [h, gatedStep_ver]
      split
      · right; simp
      · left; rfl
    · right
      rw [List.map_cons]
      exact List.mem_cons_of_mem _ h

theorem runSteps_noop (ts : List (Int × (MigState → MigState))) (s : MigState)
    (h : ∀ t ∈ ts.map Prod.fst, t ≤ s.ver) : runSteps ts s = s := by
  induction ts with
  | nil => rfl
  | cons p rest ih =>
    have hp : p.1 ≤ s.ver := h p.1 (by simp)
    have hstep : gatedStep p.1 p.2 s = s := by
      unfold gatedStep
      rw [if_neg (by omega)]
    rw [runSteps_cons, hstep]
    exact ih (fun t ht => h t (by simp [ht]))

theorem gatedStep_dbv (t : Int) (b : MigState → MigState) (s : MigState)
    (hb : dbvWrites (b s).db.log = dbvWrites s.db.log) :
    dbvWrites (gatedStep t b s).db.log
      = if s.ver < t then dbvWrites s.db.log ++ [t] else dbvWrites s.db.log := by
  unfold gatedStep
  split
  · show dbvWrites (dbSetConfigInt (b s).db dbversionKey t).log = _
    unfold dbSetConfigInt
    show dbvWrites ((b s).db.log ++ [Action.setConfigInt dbversionKey t]) = _
    rw [dbvWrites_append, hb]
    simp [dbvWrites]
  · rfl

theorem runSteps_dbv (ts : List (Int × (MigState → MigState))) (s : MigState)
    (hb : ∀ p ∈ ts, ∀ u : MigState, dbvWrites ((p.2) u).db.log = dbvWrites u.db.log)
    (hs : (ts.map Prod.fst).Pairwise (· < ·)) :
    dbvWrites (runSteps ts s).db.log
      = dbvWrites s.db.log
        ++ (ts.map Prod.fst).filter (fun t => decide (s.ver < t)) := by
  induction ts generalizing s with
  | nil => simp [runSteps]
  | cons p rest ih =>
    rw [List.map_cons, List.pairwise_cons] at hs
    obtain ⟨hlt, hrest⟩ := hs
    rw [runSteps_cons]
    by_cases hv : s.ver < p.1
    · have h1 : dbvWrites (gatedStep p.1 p.2 s).db.log = dbvWrites s.db.log ++ [p.1] := by
        rw [gatedStep_dbv p.1 p.2 s (hb p (by simp) s), if_pos hv]
      have h2 : (gatedStep p.1 p.2 s).ver = p.1 := by
        rw [gatedStep_ver, if_pos hv]
      rw [ih (gatedStep p.1 p.2 s) (fun q hq u => hb q (by simp [hq]) u) hrest, h1, h2]
      have hfa : (rest.map Prod.fst).filter (fun t => decide (p.1 < t))
          = rest.map Prod.fst :=
        List.filter_eq_self.mpr (fun t ht => by simpa using hlt t ht)
      have hfb : (rest.map Prod.fst).filter (fun t => decide (s.ver < t))
          = rest.map Prod.fst :=
        List.filter_eq_self.mpr (fun t ht => by
          have := hlt t ht
          simp
          omega)
      rw [hfa, List.map_cons, List.filter_cons, if_pos (by simpa using hv), hfb]
      simp
    · have hstep : gatedStep p.1 p.2 s = s := by
        unfold gatedStep
        rw [if_neg hv]
      rw [hstep, ih s (fun q hq u => hb q (by simp [hq]) u) hrest,
        List.map_cons, List.filter_cons, if_neg (by simpa using hv)]

theorem gatedStep_mem (a : Action) (ha : ∀ k v, a ≠ Action.setConfigInt k v)
    (t : Int) (b : MigState → MigState) (s : MigState)
    (hb : a ∈ (b s).db.log ↔ a ∈ s.db.log) :
    (a ∈ (gatedStep t b s).db.log ↔ a ∈ s.db.log) := by
  unfold gatedStep
  split
  · show a ∈ (dbSetConfigInt (b s).db dbversionKey t).log ↔ _
    unfold dbSetConfigInt
    show a ∈ (b s).db.log ++ [Action.setConfigInt dbversionKey t] ↔ _
    rw [List.mem_append]
    simp [ha, hb]
  · exact Iff.rfl

theorem runSteps_mem (a : Action) (ha : ∀ k v, a ≠ Action.setConfigInt k v)
    (ts : List (Int × (MigState → MigState))) (s : MigState)
    (hb : ∀ p ∈ ts, ∀ u : MigState, (a ∈ ((p.2) u).db.log ↔ a ∈ u.db.log)) :
    (a ∈ (runSteps ts s).db.log ↔ a ∈ s.db.log) := by
  induction ts generalizing s with
  | nil => exact Iff.rfl
  | cons p rest ih =>
    rw [runSteps_cons]
    exact (ih (gatedStep p.1 p.2 s) (fun q hq u => hb q (by simp [hq]) u)).trans
      (gatedStep_mem a ha p.1 p.2 s (hb p (by simp) s))

/-! ### Per-step facts -/

theorem mig1_dbv (u : MigState) : dbvWrites (mig1 u).db.log = dbvWrites u.db.log := by
  simp [mig1, execCreateTable, execCreateIndex, dbvWrites_append, dbvWrites]

theorem mig2_dbv (u : MigState) : dbvWrites (mig2 u).db.log = dbvWrites u.db.log := by
  simp [mig2, execAlterAdd, dbvWrites_append, dbvWrites]

theorem mig7_dbv (u : MigState) : dbvWrites (mig7 u).db.log = dbvWrites u.db.log := by
  simp [mig7, execCreateTable, dbvWrites_append, dbvWrites]

theorem mig10_dbv (u : MigState) : dbvWrites (mig10 u).db.log = dbvWrites u.db.log := by
  simp [mig10, execCreateTable, execCreateIndex, dbvWrites_append, dbvWrites]

theorem mig12_dbv (u : MigState) : dbvWrites (mig12 u).db.log = dbvWrites u.db.log := by
  simp [mig12, execCreateTable, execCreateIndex, dbvWrites_append, dbvWrites]

theorem mig17_dbv (u : MigState) : dbvWrites (mig17 u).db.log = dbvWrites u.db.log := by
  simp [mig17, execAlterAdd, execCreateIndex, dbvWrites_append, dbvWrites]

theorem mig18_dbv (u : MigState) : dbvWrites (mig18 u).db.log = dbvWrites u.db.log := by
  simp [mig18, execAlterAdd, dbvWrites_append, dbvWrites]

theorem mig27_dbv (u : MigState) : dbvWrites (mig27 u).db.log = dbvWrites u.db.log := by
  simp [mig27, execDeleteOldDeaddropMsgs, execCreateIndex, execAlterAdd,
    dbvWrites_append, dbvWrites]

theorem mig34_dbv (u : MigState) : dbvWrites (mig34 u).db.log = dbvWrites u.db.log := by
  simp [mig34, execAlterAdd, execCreateIndex, dbvWrites_append, dbvWrites]

theorem mig39_dbv (before : Int) (u : MigState) :
    dbvWrites (mig39 before u).db.log = dbvWrites u.db.log := by
  by_cases hb : before = 34 <;>
    simp [mig39, hb, execCreateTable, execAlterAdd, execCreateIndex,
      execCopyGossip, execCopyPublic, dbvWrites_append, dbvWrites]

theorem mig40_dbv (u : MigState) : dbvWrites (mig40 u).db.log = dbvWrites u.db.log := by
  simp [mig40, execAlterAdd, dbvWrites_append, dbvWrites]

theorem ladderSteps_decomp (before : Int) :
    ladderSteps before = (frontSteps ++ [(39, mig39 before)]) ++ [(40, mig40)] := rfl

theorem ladderSteps_targets (before : Int) :
    (ladderSteps before).map Prod.fst = ladderTargets := rfl

theorem ladderSteps_dbv (before : Int) :
    ∀ p ∈ ladderSteps before, ∀ u : MigState,
      dbvWrites ((p.2) u).db.log = dbvWrites u.db.log := by
  intro p hp u
  simp only [ladderSteps, List.mem_cons, List.not_mem_nil, or_false] at hp
  rcases hp with rfl | rfl | rfl | rfl | rfl | rfl | rfl | rfl | rfl | rfl | rfl
  · exact mig1_dbv u
  · exact mig2_dbv u
  · exact mig7_dbv u
  · exact mig10_dbv u
  · exact mig12_dbv u
  · exact mig17_dbv u
  · exact mig18_dbv u
  · exact mig27_dbv u
  · exact mig34_dbv u
  · exact mig39_dbv before u
  · exact mig40_dbv u

/-- The version writes of one full ladder run: every target the
starting version lies below, in ladder order. -/
theorem ladder_dbv (before : Int) (s0 : MigState) :
    dbvWrites (runSteps (ladderSteps before) s0).db.log
      = dbvWrites s0.db.log
        ++ ladderTargets.filter (fun t => decide (s0.ver < t)) := by
  rw [runSteps_dbv (ladderSteps before) s0 (ladderSteps_dbv before)
    (by rw [ladderSteps_targets]; decide), ladderSteps_targets]

/-- Writing then reading `dbversion` through the database wrappers. -/
theorem dbGetInt_dbSetInt (db : Db) (k : String) (v : Int)
    (h1 : -2147483648 ≤ v) (h2 : v < 2147483648) :
    dbGetConfigInt (dbSetConfigInt db k v) k 0 = v := by
  show dc_sqlite3_get_config_int__ (dc_sqlite3_set_config_int__ db.config k v) k 0 = v
  exact get_int_after_set_int db.config k v 0 h1 h2

theorem frontVer_lt_40 (before : Int) (s0 : MigState) (h : s0.ver < 40) :
    (runSteps (frontSteps ++ [(39, mig39 before)]) s0).ver < 40 := by
  rcases runSteps_ver_cases (frontSteps ++ [(39, mig39 before)]) s0 with hc | hc
  · omega
  · have hmap : (frontSteps ++ [(39, mig39 before)]).map Prod.fst
        = [1, 2, 7, 10, 12, 17, 18, 27, 34, 39] := rfl
    rw [hmap] at hc
    simp only [List.mem_cons, List.not_mem_nil, or_false] at hc
    rcases hc with hc | hc | hc | hc | hc | hc | hc | hc | hc | hc <;> omega

/-- After a full ladder run starting below 40, the stored `dbversion`
is 40: the last block always fires and commits its target. -/
theorem ladder_final_config (before : Int) (s0 : MigState) (h40 : s0.ver < 40) :
    dbGetConfigInt (runSteps (ladderSteps before) s0).db dbversionKey 0 = 40 := by
  rw [ladderSteps_decomp, runSteps_append]
  have hv : (runSteps (frontSteps ++ [(39, mig39 before)]) s0).ver < 40 :=
    frontVer_lt_40 before s0 h40
  rw [runSteps_cons]
  show dbGetConfigInt
    (gatedStep 40 mig40 (runSteps (frontSteps ++ [(39, mig39 before)]) s0)).db
    dbversionKey 0 = 40
  unfold gatedStep
  rw [if_pos hv]
  exact dbGetInt_dbSetInt _ dbversionKey 40 (by norm_num) (by norm_num)

theorem mig_copy_mem_front (a : Action)
    (ha : a = Action.copyGossipToVerified ∨ a = Action.copyPublicToVerified) :
    ∀ p ∈ frontSteps, ∀ u : MigState, (a ∈ ((p.2) u).db.log ↔ a ∈ u.db.log) := by
  intro p hp u
  simp only [frontSteps, List.mem_cons, List.not_mem_nil, or_false] at hp
  rcases ha with rfl | rfl <;>
    rcases hp with rfl | rfl | rfl | rfl | rfl | rfl | rfl | rfl | rfl <;>
    simp [mig1, mig2, mig7, mig10, mig12, mig17, mig18, mig27, mig34,
      execCreateTable, execCreateIndex, execAlterAdd, execDeleteOldDeaddropMsgs]

theorem mig40_copy_mem (a : Action)
    (ha : a = Action.copyGossipToVerified ∨ a = Action.copyPublicToVerified)
    (u : MigState) : (a ∈ (mig40 u).db.log ↔ a ∈ u.db.log) := by
  rcases ha with rfl | rfl <;> simp [mig40, execAlterAdd]

/-- The one-time key copy happens in the target-39 body exactly when
`dbversion_before_update` was 34. -/
theorem mig39_copy_mem (a : Action)
    (ha : a = Action.copyGossipToVerified ∨ a = Action.copyPublicToVerified)
    (before : Int) (u : MigState) :
    (a ∈ (mig39 before u).db.log ↔ (before = 34 ∨ a ∈ u.db.log)) := by
  by_cases hb : before = 34 <;>
    rcases ha with rfl | rfl <;>
    simp [mig39, hb, execCreateTable, execAlterAdd, execCreateIndex,
      execCopyGossip, execCopyPublic]

theorem gatedStep39_copy_mem (a : Action)
    (ha : a = Action.copyGossipToVerified ∨ a = Action.copyPublicToVerified)
    (before : Int) (s : MigState) :
    (a ∈ (gatedStep 39 (mig39 before) s).db.log
      ↔ ((s.ver < 39 ∧ before = 34) ∨ a ∈ s.db.log)) := by
  unfold gatedStep
  split
  · rename_i h
    show a ∈ (dbSetConfigInt (mig39 before s).db dbversionKey 39).log ↔ _
    unfold dbSetConfigInt
    show a ∈ (mig39 before s).db.log ++ [Action.setConfigInt dbversionKey 39] ↔ _
    rw [List.mem_append, mig39_copy_mem a ha before s]
    rcases ha with rfl | rfl <;> simp [h]
  · rename_i h
    simp [h]

theorem frontSteps_ver_lt39 (s0 : MigState) :
    ((runSteps frontSteps s0).ver < 39 ↔ s0.ver < 39) := by
  have hmap : frontSteps.map Prod.fst = [1, 2, 7, 10, 12, 17, 18, 27, 34] := rfl
  constructor
  · intro h
    by_contra hge
    push_neg at hge
    rw [runSteps_noop frontSteps s0 ?_] at h
    · omega
    · intro t ht
      rw [hmap] at ht
      simp only [List.mem_cons, List.not_mem_nil, or_false] at ht
      rcases ht with rfl | rfl | rfl | rfl | rfl | rfl | rfl | rfl | rfl <;> omega
  · intro h
    rcases runSteps_ver_cases frontSteps s0 with hc | hc
    · omega
    · rw [hmap] at hc
      simp only [List.mem_cons, List.not_mem_nil, or_false] at hc
      rcases hc with hc | hc | hc | hc | hc | hc | hc | hc | hc <;> omega

/-- Copy-statement occurrence across one full ladder run. -/
theorem ladder_copy_mem (a : Action)
    (ha : a = Action.copyGossipToVerified ∨ a = Action.copyPublicToVerified)
    (before : Int) (s0 : MigState) :
    (a ∈ (runSteps (ladderSteps before) s0).db.log
      ↔ ((s0.ver < 39 ∧ before = 34) ∨ a ∈ s0.db.log)) := by
  have hnotset : ∀ k v, a ≠ Action.setConfigInt k v := by
    rcases ha with rfl | rfl <;> intro k v <;> simp
  rw [ladderSteps_decomp, runSteps_append, runSteps_append]
  rw [runSteps_mem a hnotset [(40, mig40)] _ (by
    intro p hp u
    simp only [List.mem_cons, List.not_mem_nil, or_false] at hp
    subst hp
    exact mig40_copy_mem a ha u)]
  rw [show runSteps [(39, mig39 before)] (runSteps frontSteps s0)
      = gatedStep 39 (mig39 before) (runSteps frontSteps s0) from rfl]
  rw [gatedStep39_copy_mem a ha before _]
  rw [runSteps_mem a hnotset frontSteps s0 (mig_copy_mem_front a ha)]
  rw [frontSteps_ver_lt39 s0]

theorem bootstrap_dbv (db : Db) :
    dbvWrites (bootstrapTables db).log = dbvWrites db.log ++ [0] := by
  simp [bootstrapTables, execCreateTable, execCreateIndex, execInsertContacts,
    execInsertChats, execInsertMsgs, dbSetConfigInt, dbvWrites_append, dbvWrites]

theorem bootstrap_copy_mem (a : Action)
    (ha : a = Action.copyGossipToVerified ∨ a = Action.copyPublicToVerified) (db : Db) :
    (a ∈ (bootstrapTables db).log ↔ a ∈ db.log) := by
  rcases ha with rfl | rfl <;>
    simp [bootstrapTables, execCreateTable, execCreateIndex, execInsertContacts,
      execInsertChats, execInsertMsgs, dbSetConfigInt]

/-- The post-ladder recalc pass does not touch the config store. -/
theorem open_rw_config (db0 : Db) :
    (dc_sqlite3_open_rw db0).config = (ladderResult db0).db.config := by
  unfold dc_sqlite3_open_rw
  split <;> rfl

theorem open_rw_dbv (db0 : Db) :
    dbvWrites (dc_sqlite3_open_rw db0).log = dbvWrites (ladderResult db0).db.log := by
  unfold dc_sqlite3_open_rw
  split
  · show dbvWrites ((ladderResult db0).db.log ++ [Action.recalcFingerprints]) = _
    rw [dbvWrites_append]
    simp [dbvWrites]
  · rfl

theorem open_rw_copy_mem (a : Action)
    (ha : a = Action.copyGossipToVerified ∨ a = Action.copyPublicToVerified)
    (db0 : Db) :
    (a ∈ (dc_sqlite3_open_rw db0).log ↔ a ∈ (ladderResult db0).db.log) := by
  unfold dc_sqlite3_open_rw
  split
  · show a ∈ (ladderResult db0).db.log ++ [Action.recalcFingerprints] ↔ _
    rw [List.mem_append]
    rcases ha with rfl | rfl <;> simp
  · exact Iff.rfl

theorem atolLoop_head_not_digit (l : CStr) (acc : Int) (h : headIsDigit l = false) :
    atolLoop l acc = acc := by
  cases l with
  | nil => rfl
  | cons c rest =>
    simp only [headIsDigit] at h
    simp [atolLoop, h]

/-- A string with no digits at its front parses to 0 under `atol`. -/
theorem atol_eq_zero_of_not_leading (s : CStr) (h : hasLeadingInt s = false) :
    atol s = 0 := by
  unfold atol
  cases hdw : s.dropWhile isSpaceByte with
  | nil => rfl
  | cons c rest =>
    have h' : (if c == 45 then headIsDigit rest
        else if c == 43 then headIsDigit rest
        else isDigitByte c) = false := by
      have hh := h
      unfold hasLeadingInt at hh
      rw [hdw] at hh
      exact hh
    rw [show atolSigned (c :: rest)
        = (if c == 45 then - atolLoop rest 0
           else if c == 43 then atolLoop rest 0
           else atolLoop (c :: rest) 0) from rfl]
    by_cases h45 : (c == 45) = true
    · rw [if_pos h45] at h' ⊢
      rw [atolLoop_head_not_digit rest 0 h']
      rfl
    · rw [if_neg h45] at h' ⊢
      by_cases h43 : (c == 43) = true
      · rw [if_pos h43] at h' ⊢
        exact atolLoop_head_not_digit rest 0 h'
      · rw [if_neg h43] at h' ⊢
        refine atolLoop_head_not_digit (c :: rest) 0 ?_
        simpa [headIsDigit] using h'

/-! ### The claims -/

/-- Claim C1: for every database opened read-write (freshly bootstrapped
or starting at any dbversion below 40), the open applies the migration
steps in the fixed target order 1, 2, 7, 10, 12, 17, 18, 27, 34, 39, 40,
each step firing exactly when the current version is below its target
(witnessed by the ordered list of dbversion commits), and afterwards
`get_config_int("dbversion")` is 40. -/
theorem claim_C1 (db : Db) (hlog : db.log = []) (hv : openBefore db < 40) :
    dbGetConfigInt (dc_sqlite3_open_rw db) dbversionKey 0 = 40
    ∧ dbvWrites (dc_sqlite3_open_rw db).log
        = (if dc_sqlite3_table_exists__ db tblConfig then [] else [0])
          ++ ladderTargets.filter (fun t => decide (openBefore db < t)) := by
  constructor
  · show dc_sqlite3_get_config_int__ (dc_sqlite3_open_rw db).config dbversionKey 0 = 40
    rw [open_rw_config]
    exact ladder_final_config (openBefore db) ⟨openStartDb db, openBefore db, false⟩ hv
  · rw [open_rw_dbv]
    show dbvWrites
      (runSteps (ladderSteps (openBefore db))
        ⟨openStartDb db, openBefore db, false⟩).db.log = _
    rw [ladder_dbv]
    show dbvWrites (openStartDb db).log
        ++ ladderTargets.filter (fun t => decide (openBefore db < t)) = _
    have hstart : dbvWrites (openStartDb db).log
        = (if dc_sqlite3_table_exists__ db tblConfig then [] else [0]) := by
      unfold openStartDb
      split
      · rw [hlog]; rfl
      · rw [bootstrap_dbv, hlog]; rfl
    rw [hstart]

theorem claim_C1_witness :
    dbGetConfigInt (dc_sqlite3_open_rw emptyDb) dbversionKey 0 = 40
    ∧ dbvWrites (dc_sqlite3_open_rw emptyDb).log
        = (if dc_sqlite3_table_exists__ emptyDb tblConfig then [] else [0])
          ++ ladderTargets.filter (fun t => decide (openBefore emptyDb < t)) :=
  claim_C1 emptyDb rfl (by decide)

/-- Claim C2: during the target-39 step, the copy of
gossip/public key material into the verified-key columns executes if
and only if the dbversion read at the start of open was exactly 34; for
every other starting version, including a fresh bootstrap, no copy is
executed. -/
theorem claim_C2 (db : Db) (hlog : db.log = []) :
    (Action.copyGossipToVerified ∈ (dc_sqlite3_open_rw db).log
      ↔ (dc_sqlite3_table_exists__ db tblConfig = true
         ∧ dbGetConfigInt db dbversionKey 0 = 34))
    ∧ (Action.copyPublicToVerified ∈ (dc_sqlite3_open_rw db).log
      ↔ (dc_sqlite3_table_exists__ db tblConfig = true
         ∧ dbGetConfigInt db dbversionKey 0 = 34)) := by
  have main : ∀ a, (a = Action.copyGossipToVerified ∨ a = Action.copyPublicToVerified) →
      (a ∈ (dc_sqlite3_open_rw db).log
        ↔ (dc_sqlite3_table_exists__ db tblConfig = true
           ∧ dbGetConfigInt db dbversionKey 0 = 34)) := by
    intro a ha
    rw [open_rw_copy_mem a ha db]
    rw [show ladderResult db
      = runSteps (ladderSteps (openBefore db))
          ⟨openStartDb db, openBefore db, false⟩ from rfl]
    rw [ladder_copy_mem a ha (openBefore db) _]
    show ((openBefore db < 39 ∧ openBefore db = 34) ∨ a ∈ (openStartDb db).log) ↔ _
    have hmem : (a ∈ (openStartDb db).log) ↔ False := by
      unfold openStartDb
      split
      · rw [hlog]; simp
      · rw [bootstrap_copy_mem a ha, hlog]; simp
    rw [hmem]
    by_cases he : dc_sqlite3_table_exists__ db tblConfig = true
    · have hOB : openBefore db = dbGetConfigInt db dbversionKey 0 := by
        unfold openBefore
        rw [if_pos he]
      rw [hOB]
      constructor
      · rintro (⟨h1, h2⟩ | hF)
        · exact ⟨he, h2⟩
        · exact hF.elim
      · rintro ⟨_, h2⟩
        exact Or.inl ⟨by omega, h2⟩
    · have hOB : openBefore db = 0 := by
        unfold openBefore
        rw [if_neg he]
      rw [hOB]
      constructor
      · rintro (⟨h1, h2⟩ | hF)
        · exact absurd h2 (by norm_num)
        · exact hF.elim
      · rintro ⟨hT, _⟩
        exact (he hT).elim
  exact ⟨main _ (Or.inl rfl), main _ (Or.inr rfl)⟩

theorem claim_C2_witness :
    Action.copyGossipToVerified ∈ (dc_sqlite3_open_rw db34).log
    ∧ Action.copyPublicToVerified ∈ (dc_sqlite3_open_rw db34).log :=
  ⟨(claim_C2 db34 rfl).1.mpr (by decide), (claim_C2 db34 rfl).2.mpr (by decide)⟩

/-- Claim C3: for every N of at least 1, N begins followed by N commits
from counter 0 issue exactly one physical BEGIN and one physical
COMMIT, and end with the counter back at 0; every inner call is
silent. -/
theorem claim_C3 (n : Nat) (h : 1 ≤ n) :
    runTx 0 (List.replicate n TxOp.beginOp ++ List.replicate n TxOp.commitOp)
      = (0, [TxStmt.beginStmt, TxStmt.commitStmt]) := by
  obtain ⟨m, rfl⟩ : ∃ m, n = m + 1 := ⟨n - 1, by omega⟩
  rw [runTx_append]
  have h1 : runTx 0 (List.replicate (m + 1) TxOp.beginOp)
      = ((m : Int) + 1, [TxStmt.beginStmt]) := by
    rw [List.replicate_succ, runTx_cons]
    have hstep : stepTx 0 TxOp.beginOp = (1, [TxStmt.beginStmt]) := by
      simp [stepTx, dc_sqlite3_begin_transaction__]
    rw [hstep, runTx_inner_begins m 1 (by omega)]
    simp only [Prod.mk.injEq]
    refine ⟨by ring, by simp⟩
  rw [h1, runTx_unwind_commits m]
  simp

theorem claim_C3_witness :
    runTx 0 (List.replicate 3 TxOp.beginOp ++ List.replicate 3 TxOp.commitOp)
      = (0, [TxStmt.beginStmt, TxStmt.commitStmt]) :=
  claim_C3 3 (by norm_num)

/-- Claim C4: on the open store, set then get returns the stored value
whether or not the key was present, and setting the absent value
deletes the key so that get returns the caller default. -/
theorem claim_C4 (c1 c2 : Config) (k : String) (v : CStr) (d1 d2 : CStr) :
    dc_sqlite3_get_config__ (dc_sqlite3_set_config__ c1 k (some v)) k (some d1) = some v
    ∧ dc_sqlite3_get_config__ (dc_sqlite3_set_config__ c2 k none) k (some d2) = some d2 :=
  ⟨get_after_set_some c1 k v (some d1), get_after_set_none c2 k (some d2)⟩

/-- Claim C6: after a fresh bootstrap, each of contacts, chats and msgs
holds exactly the reserved rows with ids 1..9; the contacts row with
id 1 is named `self` and every reserved contacts row carries origin
262144, so a later insert of user data cannot receive an id below
10. -/
theorem claim_C6 :
    ((List.range' 1 9).all (fun i =>
        (dc_sqlite3_open_rw emptyDb).contacts.any (fun r => r.id == i)
        && (dc_sqlite3_open_rw emptyDb).chats.any (fun r => r.id == i)
        && (dc_sqlite3_open_rw emptyDb).msgs.any (fun r => r.id == i))) = true
    ∧ ((dc_sqlite3_open_rw emptyDb).contacts.filter (fun r => r.id == 1)).map
        Contact.name = [nmSelf]
    ∧ ((dc_sqlite3_open_rw emptyDb).contacts.all
        (fun r => !(decide (r.id ≤ 9)) || (r.origin == 262144))) = true
    ∧ (dc_sqlite3_open_rw emptyDb).contacts.map Contact.id
        = [1, 2, 3, 4, 5, 6, 7, 8, 9]
    ∧ (dc_sqlite3_open_rw emptyDb).chats.map Chat.id
        = [1, 2, 3, 4, 5, 6, 7, 8, 9]
    ∧ (dc_sqlite3_open_rw emptyDb).msgs.map Msg.id
        = [1, 2, 3, 4, 5, 6, 7, 8, 9] := by
  decide

/-- Claim C7 counterexample: with the non-numeric string "abc" (bytes
97 98 99, no leading integer prefix) stored under key "k",
`get_config_int` with default 7 returns 0, not the default, refuting
the claim as stated. -/
theorem claim_C7_counterexample :
    hasLeadingInt [97, 98, 99] = false
    ∧ dc_sqlite3_get_config_int__
        (dc_sqlite3_set_config__ [] cfgKeyK (some [97, 98, 99])) cfgKeyK 7 = 0
    ∧ ¬ dc_sqlite3_get_config_int__
        (dc_sqlite3_set_config__ [] cfgKeyK (some [97, 98, 99])) cfgKeyK 7 = 7 := by
  refine ⟨by decide, by decide, by decide⟩

/-- Claim C7 (amended): `get_config_int` returns the caller default
exactly when the key is absent; when a value is stored it returns
`(int32_t) atol(value)`, which is 0 — not the default — for a
non-numeric string, and the leading integer prefix otherwise. -/
theorem claim_C7_amended (c : Config) (k : String) (de : Int) :
    (dc_sqlite3_get_config__ c k none = none
      → dc_sqlite3_get_config_int__ c k de = de)
    ∧ (∀ s, dc_sqlite3_get_config__ c k none = some s
      → dc_sqlite3_get_config_int__ c k de = toInt32 (atol s))
    ∧ (∀ s, dc_sqlite3_get_config__ c k none = some s
      → hasLeadingInt s = false
      → dc_sqlite3_get_config_int__ c k de = 0) := by
  refine ⟨?_, ?_, ?_⟩
  · intro h
    unfold dc_sqlite3_get_config_int__
    rw [h]
  · intro s h
    unfold dc_sqlite3_get_config_int__
    rw [h]
  · intro s h hnl
    unfold dc_sqlite3_get_config_int__
    rw [h]
    show toInt32 (atol s) = 0
    rw [atol_eq_zero_of_not_leading s hnl]
    decide

theorem claim_C7_witness :
    dc_sqlite3_get_config_int__ ([] : Config) cfgKeyK 7 = 7
    ∧ dc_sqlite3_get_config_int__ [(cfgKeyK, [97, 98, 99])] cfgKeyK 7 = 0 :=
  ⟨(claim_C7_amended [] cfgKeyK 7).1 (by decide),
   (claim_C7_amended [(cfgKeyK, [97, 98, 99])] cfgKeyK 7).2.2 [97, 98, 99]
     (by decide) (by decide)⟩

/-- Claim C8: `set_config_int` then `get_config_int` round-trips every
value in the signed 32-bit range, negative values and INT32_MIN
included. -/
theorem claim_C8 (c : Config) (k : String) (v : Int)
    (h1 : -2147483648 ≤ v) (h2 : v < 2147483648) :
    dc_sqlite3_get_config_int__ (dc_sqlite3_set_config_int__ c k v) k 0 = v :=
  get_int_after_set_int c k v 0 h1 h2

theorem claim_C8_witness :
    dc_sqlite3_get_config_int__
      (dc_sqlite3_set_config_int__ [] cfgKeyK (-2147483648)) cfgKeyK 0
      = -2147483648 :=
  claim_C8 [] cfgKeyK (-2147483648) (by norm_num) (by norm_num)

/-- Claim C5: opening an existing database with the READONLY flag skips
the bootstrap/migration branch entirely — the returned connection holds
the database exactly as stored (same dbversion, same tables, same
rows) — and the open succeeds with a usable connection. -/
theorem claim_C5 (h : Handle) (env : OpenEnv) (db : Db)
    (hclosed : h.cobj = none) (ht : env.threadsafe = true) (ho : env.openOk = true) :
    dc_sqlite3_open__ h env (some db) true = ({ h with cobj := some db }, true) := by
  unfold dc_sqlite3_open__
  rw [if_neg (by rw [ht]; simp), if_neg (by rw [hclosed]; simp),
    if_neg (by rw [ho]; simp), if_pos rfl]
  rfl

theorem claim_C5_witness :
    dc_sqlite3_open__ h0 envOk (some db18) true = ({ h0 with cobj := some db18 }, true) :=
  claim_C5 h0 envOk db18 rfl rfl rfl

/-- Claim C9: commit or rollback at counter 0 is silently ignored — the
counter stays 0 and no physical statement is issued — and the counter
stays non-negative across every sequence of begin/commit/rollback
calls. -/
theorem claim_C9 :
    dc_sqlite3_commit__ 0 = (0, [])
    ∧ dc_sqlite3_rollback__ 0 = (0, [])
    ∧ ∀ (ops : List TxOp) (cnt : Int), 0 ≤ cnt → 0 ≤ (runTx cnt ops).1 :=
  ⟨by simp [dc_sqlite3_commit__],
   by simp [dc_sqlite3_rollback__],
   fun ops cnt h => runTx_nonneg ops cnt h⟩

theorem claim_C9_witness :
    dc_sqlite3_commit__ 0 = (0, [])
    ∧ dc_sqlite3_rollback__ 0 = (0, [])
    ∧ 0 ≤ (runTx 0 [TxOp.commitOp, TxOp.rollbackOp, TxOp.beginOp]).1 :=
  ⟨claim_C9.1, claim_C9.2.1,
   claim_C9.2.2 [TxOp.commitOp, TxOp.rollbackOp, TxOp.beginOp] 0 (by norm_num)⟩

/-- Claim C10: whenever open returns failure — for any reason,
including being invoked on an already-open handle — the handle is left
closed; in the already-open case the open fails and runs close, which
finalizes every cached statement and closes the previous connection. -/
theorem claim_C10 (h : Handle) (env : OpenEnv) (file : Option Db) (ro : Bool) :
    ((dc_sqlite3_open__ h env file ro).2 = false
      → dc_sqlite3_is_open (dc_sqlite3_open__ h env file ro).1 = false)
    ∧ (dc_sqlite3_is_open h = true
      → dc_sqlite3_open__ h env file ro
          = (⟨none, h.pd.map (fun _ => false)⟩, false)) := by
  have hclose : dc_sqlite3_is_open (dc_sqlite3_close__ h) = false := by
    unfold dc_sqlite3_close__ dc_sqlite3_is_open
    split
    · rfl
    · rename_i hn
      simpa using hn
  constructor
  · intro hfail
    unfold dc_sqlite3_open__ at hfail ⊢
    split_ifs at hfail ⊢ <;> exact hclose
  · intro hopen
    have hcobj : h.cobj.isSome = true := hopen
    have hcl : dc_sqlite3_close__ h = ⟨none, h.pd.map (fun _ => false)⟩ := by
      unfold dc_sqlite3_close__
      rw [if_pos hcobj]
    unfold dc_sqlite3_open__
    by_cases hts : env.threadsafe = false
    · rw [if_pos hts, hcl]
    · rw [if_neg hts, if_pos hcobj, hcl]

theorem claim_C10_witness :
    dc_sqlite3_is_open (dc_sqlite3_open__ hOpen envOk none false).1 = false
    ∧ dc_sqlite3_open__ hOpen envOk none false
        = (⟨none, hOpen.pd.map (fun _ => false)⟩, false) :=
  ⟨(claim_C10 hOpen envOk none false).1 (by decide),
   (claim_C10 hOpen envOk none false).2 (by decide)⟩

end DeltaChat
